import Mathlib

/-
Shallow embedding of `src/b_s.py`, a long-lived Matrix-channel agent.

The embedding translates the program's pure logic directly; the external
capabilities (psutil process enumeration/termination, the `attrib` and
`shutdown` subprocesses, `os.path.exists` / `os.remove`, the Matrix client's
`sync` / `room_send`, and the local clock) are modelled as explicit
environment records whose fields record the observable outcome of each
capability call, exactly as the Python code branches on them.  Python
exceptions are modelled with `Except` (a `.error` value at the point where
the corresponding Python call can raise); `try/except` blocks become matches
on those `Except` values.  Machine integers do not overflow here (Python
ints are unbounded), so timestamps are plain `Int` millisecond values.
-/

/-- Python `str.isspace()` on one character — the set `str.strip()`
removes: ASCII whitespace including the vertical tab, form feed and the
`\x1c`-`\x1f` separators, plus NEL, NBSP and the Unicode space and line
separators. -/
def pyIsSpace (c : Char) : Bool :=
  c == ' ' || c == '\t' || c == '\n' || c == '\x0b' || c == '\x0c' || c == '\r' ||
  c == '\x1c' || c == '\x1d' || c == '\x1e' || c == '\x1f' ||
  c == '\x85' || c == '\xa0' || c == '\u1680' ||
  ('\u2000' ≤ c && c ≤ '\u200a') ||
  c == '\u2028' || c == '\u2029' || c == '\u202f' || c == '\u205f' || c == '\u3000'

/-- Python `str.strip()` on the character list: drop Python whitespace
from the front, then from the back (via reverse). -/
def pyStripList (l : List Char) : List Char :=
  ((l.dropWhile pyIsSpace).reverse.dropWhile pyIsSpace).reverse

/-- Python `str.strip()` (default whitespace stripping). -/
def pyStrip (s : String) : String := ⟨pyStripList s.data⟩

/-- Python `str.startswith(pre)`. -/
def pyStartsWith (s pre : String) : Bool := pre.data.isPrefixOf s.data

/-- Python `str.lower()` (per-character lowering). -/
def pyLower (s : String) : String := ⟨s.data.map Char.toLower⟩

/-- Python truthiness of an optional string (`if response:`):
`None` and the empty string are falsy. -/
def pyTruthy : Option String → Bool
  | none => false
  | some s => !s.data.isEmpty

/-- Python `pat in l` substring containment on character lists. -/
def containsSub (l pat : List Char) : Bool :=
  if pat.isPrefixOf l then true
  else
    match l with
    | [] => false
    | _ :: t => containsSub t pat

/-- Capability calls performed by `process_command`, recorded as a trace so
that "no side effects" is statable. -/
inductive Effect where
  | terminate
  | hideVbs
  | deleteVbs
  | shutdown
  | restart
deriving Repr, DecidableEq

/-- One process as seen through psutil's `process_iter` view, together with
the observable outcome of trying to terminate (or kill) it: `accessDenied`
models a `NoSuchProcess`/`AccessDenied` raise (caught, iteration continues),
`fault` a different exception (propagates to the outer handler of
`terminate_processes`). -/
structure Proc where
  pid : Nat
  name : String
  cmdline : List String
  accessDenied : Bool
  fault : Option String
deriving Repr, DecidableEq

/-- Environment of external capability outcomes for one command dispatch.
`procs1` is the `process_iter` snapshot of the terminate pass, `procs2` the
snapshot of the force-kill pass; `vbsExists` is `os.path.exists` on the
startup VBS path; `attribOk` is success of the `attrib +H` subprocess
(`check=True`); `removeOk` success of `os.remove`; `shutdownOk`/`restartOk`
success of the `shutdown` subprocess calls. -/
structure Caps where
  procs1 : List Proc
  procs2 : List Proc
  vbsExists : Bool
  attribOk : Bool
  removeOk : Bool
  shutdownOk : Bool
  restartOk : Bool
deriving Repr, DecidableEq

/-- The filter of `terminate_processes`: a Python process whose command line
mentions `b_s.py` or `b_m.py` (source lines 70-73 and 85-88). -/
def matchesBot (cmdline : List String) : Bool :=
  match cmdline with
  | c0 :: _ :: _ =>
      containsSub (pyLower c0).data "python".data &&
      cmdline.any (fun a => containsSub a.data "b_s.py".data ||
                            containsSub a.data "b_m.py".data)
  | _ => false

/-- One pass of `terminate_processes` over a `process_iter` snapshot:
appends a tag for each terminated process, skips access-denied ones, and
aborts with the exception text when a call raises something else. -/
def termPass (suffix : String) : List Proc → List String → List String × Option String
  | [], acc => (acc, none)
  | p :: ps, acc =>
    if matchesBot p.cmdline then
      if p.accessDenied then termPass suffix ps acc
      else
        match p.fault with
        | some e => (acc, some e)
        | none =>
            termPass suffix ps
              (acc ++ [p.name ++ " (PID: " ++ toString p.pid ++ ")" ++ suffix])
    else termPass suffix ps acc

/-- `terminate_processes` (source lines 61-97): a terminate pass, then a
force-kill pass; any non-ignored exception lands in the `errors` list of the
returned `(terminated, errors)` pair. -/
def terminate_processes (c : Caps) : List String × List String :=
  match termPass "" c.procs1 [] with
  | (t1, some e) => (t1, [e])
  | (t1, none) =>
    match termPass " - force killed" c.procs2 t1 with
    | (t2, some e) => (t2, [e])
    | (t2, none) => (t2, [])

/-- `hide_vbs_file` (source lines 106-116): true only when the VBS file
exists and the `attrib +H` subprocess succeeds; any failure (including a
missing file) yields `False`. -/
def hide_vbs_file (c : Caps) : Bool := c.vbsExists && c.attribOk

/-- `delete_vbs_file` (source lines 118-132): true only when the VBS file
exists and `os.remove` succeeds. -/
def delete_vbs_file (c : Caps) : Bool := c.vbsExists && c.removeOk

/-- `shutdown_pc` (source lines 134-141). -/
def shutdown_pc (c : Caps) : Bool := c.shutdownOk

/-- `restart_pc` (source lines 143-150). -/
def restart_pc (c : Caps) : Bool := c.restartOk

/-- The configured agent identity (source line 19). -/
def BOT_NAME : String := "PC1"

/-- Initial value of the global `running` flag (source line 38). -/
def running_init : Bool := true

/-- Outcome of one `process_command` dispatch: the optional reply, the new
value of the global `running` flag, and the capability calls performed. -/
structure Outcome where
  reply : Option String
  running : Bool
  effects : List Effect
deriving Repr, DecidableEq

/-- `process_command` (source lines 257-329): exact-match command dispatch
over the stripped message, parameterized by the agent identity
(`BOT_NAME`) and threading the global `running` flag explicitly. -/
def process_command (c : Caps) (botName msg : String) (running : Bool) : Outcome :=
  if pyStrip msg = "DEFCON 5 " ++ botName then
    if (terminate_processes c).2.isEmpty then
      ⟨some ("Success from " ++ botName ++ " on DEFCON 5"), false, [Effect.terminate]⟩
    else
      ⟨some ("Error from " ++ botName ++ " on DEFCON 5: " ++
        String.intercalate "; " (terminate_processes c).2), running, [Effect.terminate]⟩
  else if pyStrip msg = "DEFCON 4 " ++ botName then
    if (terminate_processes c).2.isEmpty then
      if hide_vbs_file c then
        ⟨some ("Success from " ++ botName ++ " on DEFCON 4"), false,
          [Effect.terminate, Effect.hideVbs]⟩
      else
        ⟨some ("Error from " ++ botName ++ " on DEFCON 4: Failed to hide VBS file"),
          running, [Effect.terminate, Effect.hideVbs]⟩
    else
      ⟨some ("Error from " ++ botName ++ " on DEFCON 4: " ++
        String.intercalate "; " (terminate_processes c).2), running, [Effect.terminate]⟩
  else if pyStrip msg = "DEFCON 3 " ++ botName then
    if (terminate_processes c).2.isEmpty then
      if delete_vbs_file c then
        ⟨some ("Success from " ++ botName ++ " on DEFCON 3"), false,
          [Effect.terminate, Effect.deleteVbs]⟩
      else
        ⟨some ("Error from " ++ botName ++ " on DEFCON 3: Failed to delete VBS file"),
          running, [Effect.terminate, Effect.deleteVbs]⟩
    else
      ⟨some ("Error from " ++ botName ++ " on DEFCON 3: " ++
        String.intercalate "; " (terminate_processes c).2), running, [Effect.terminate]⟩
  else if pyStrip msg = "DEFCON 2" then
    if (terminate_processes c).2.isEmpty then
      if delete_vbs_file c then
        ⟨some ("Success from " ++ botName ++ " on DEFCON 2"), false,
          [Effect.terminate, Effect.deleteVbs]⟩
      else
        ⟨some ("Error from " ++ botName ++ " on DEFCON 2: Failed to delete VBS file"),
          running, [Effect.terminate, Effect.deleteVbs]⟩
    else
      ⟨some ("Error from " ++ botName ++ " on DEFCON 2: " ++
        String.intercalate "; " (terminate_processes c).2), running, [Effect.terminate]⟩
  else if pyStrip msg = "Are you online " ++ botName then
    ⟨some ("Yes " ++ botName ++ " is online"), running, []⟩
  else if pyStrip msg = "PC Shutdown " ++ botName then
    if shutdown_pc c then
      ⟨some ("shutdown confirmed for " ++ botName), running, [Effect.shutdown]⟩
    else
      ⟨some ("Error from " ++ botName ++ ": Failed to initiate shutdown"),
        running, [Effect.shutdown]⟩
  else if pyStrip msg = "PC Restart " ++ botName then
    if restart_pc c then
      ⟨some ("restart confirmed for " ++ botName), running, [Effect.restart]⟩
    else
      ⟨some ("Error from " ++ botName ++ ": Failed to initiate restart"),
        running, [Effect.restart]⟩
  else ⟨none, running, []⟩

/-- The exact command patterns of the dispatch chain, in branch order. -/
def allPatterns (bn : String) : List String :=
  ["DEFCON 5 " ++ bn, "DEFCON 4 " ++ bn, "DEFCON 3 " ++ bn, "DEFCON 2",
   "Are you online " ++ bn, "PC Shutdown " ++ bn, "PC Restart " ++ bn]

/-- The identity-scoped command bodies addressed to a given identity (the
unscoped broadcast `DEFCON 2` is not addressed to any one identity). -/
def addressedBodies (id : String) : List String :=
  ["DEFCON 5 " ++ id, "DEFCON 4 " ++ id, "DEFCON 3 " ++ id,
   "Are you online " ++ id, "PC Shutdown " ++ id, "PC Restart " ++ id]

/-- Environment of one inbound message as seen by `message_callback`:
the current connection epoch, the event's server timestamp and body, the
capability environment behind `process_command`, plus two fault-injection
points for exceptions raised inside the handled path (`procFault` for an
unexpected exception during command processing, `sendFault` for
`client.room_send` raising). -/
structure MsgEnv where
  botName : String
  epoch : Option Int
  serverTs : Int
  body : String
  caps : Caps
  procFault : Option String
  sendFault : Option String
deriving Repr

/-- Observable result of one `message_callback` invocation. -/
inductive HandlerResult where
  | skippedNoEpoch
  | skippedMarker
  | skippedOld
  | done (sent : Option String) (effects : List Effect)
  | errorLogged (msg : String) (effects : List Effect)
deriving Repr, DecidableEq

/-- Body of the `try:` block of `message_callback` (source lines 222-253):
marker check, strict-timestamp classification, command dispatch, reply
send.  A raised exception is an `.error` carrying the exception text
together with the `running` flag and effect trace at the raise point. -/
def message_callback_try (ts0 : Int) (env : MsgEnv) (running : Bool) :
    Except (String × Bool × List Effect) (HandlerResult × Bool) :=
  if pyStartsWith env.body "__TIMESTAMP_SYNC__" then .ok (.skippedMarker, running)
  else if env.serverTs ≤ ts0 then .ok (.skippedOld, running)
  else
    match env.procFault with
    | some e => .error (e, running, [])
    | none =>
      if pyTruthy (process_command env.caps env.botName (pyStrip env.body) running).reply then
        match env.sendFault with
        | some e =>
            .error (e, (process_command env.caps env.botName (pyStrip env.body) running).running,
              (process_command env.caps env.botName (pyStrip env.body) running).effects)
        | none =>
            .ok (.done (process_command env.caps env.botName (pyStrip env.body) running).reply
                  (process_command env.caps env.botName (pyStrip env.body) running).effects,
              (process_command env.caps env.botName (pyStrip env.body) running).running)
      else
        .ok (.done none (process_command env.caps env.botName (pyStrip env.body) running).effects,
          (process_command env.caps env.botName (pyStrip env.body) running).running)

/-- `message_callback` (source lines 213-255): drop everything while the
epoch is unset, then run the per-message path with every exception caught
at the handler boundary and logged. -/
def message_callback (env : MsgEnv) (running : Bool) : HandlerResult × Bool :=
  match env.epoch with
  | none => (.skippedNoEpoch, running)
  | some ts0 =>
    match message_callback_try ts0 env running with
    | .ok out => out
    | .error (e, r, effs) => (.errorLogged e effs, r)

/-- Whether a handler result discarded the message before command
processing. -/
def HandlerResult.discarded : HandlerResult → Bool
  | .skippedNoEpoch => true
  | .skippedMarker => true
  | .skippedOld => true
  | _ => false

/-- The poll loop's message handling, folded over a list of inbound
message environments, threading the `running` flag. -/
def handleAll (envs : List MsgEnv) (running : Bool) : Bool :=
  envs.foldl (fun r e => (message_callback e r).2) running

/-- One iteration of `update_lock_file` (source lines 51-59): writes the
lock file (successfully or not) and leaves the `running` flag untouched —
the liveness loop only reads the flag. -/
def update_lock_file_iter (running : Bool) (_writeOk : Bool) : Bool := running

/-- The `finally:` block of `main` (source lines 392-396): unconditionally
sets the `running` flag to false. -/
def main_finally (_running : Bool) : Bool := false

/-- One timeline event from a sync response, as inspected by the marker
scan of `establish_connection_timestamp` (`body` is `none` when the event
carries no `body` attribute). -/
structure TLEvent where
  body : Option String
  serverTs : Int
deriving Repr, DecidableEq

/-- Environment of external outcomes for `establish_connection_timestamp`:
the two `client.sync` calls (exception text, or the
`isinstance(..., SyncResponse)` flag), the marker `room_send`, the
timeline events returned for the room (`none` models
`rooms.join.get(ROOM_ID)` being absent), and the two observations of
`int(time.time() * 1000)` made at the two fallback sites. -/
structure SyncEnv where
  sync1 : Except String Bool
  sendMarker : Except String Unit
  sync2 : Except String Bool
  roomEvents : Option (List TLEvent)
  fallbackMs : Int
  finalMs : Int
deriving Repr

/-- The marker scan (source lines 185-194): walk the timeline events newest
first and adopt the server timestamp of the first body starting with the
sync tag. -/
def scanMarker (events : List TLEvent) : Option Int :=
  events.reverse.findSome? fun e =>
    match e.body with
    | some b => if pyStartsWith b "__TIMESTAMP_SYNC__" then some e.serverTs else none
    | none => none

/-- The inner `try:` of `establish_connection_timestamp` (source lines
167-197): send the marker, resync, scan; `none` when any step raises, the
response is not a `SyncResponse`, the room is absent, the timeline is
empty, or the marker is not found. -/
def markerRound (env : SyncEnv) : Option Int :=
  match env.sendMarker with
  | .error _ => none
  | .ok _ =>
    match env.sync2 with
    | .error _ => none
    | .ok isSync =>
      if isSync then
        match env.roomEvents with
        | some evs => if evs.isEmpty then none else scanMarker evs
        | none => none
      else none

/-- `establish_connection_timestamp` (source lines 152-211): returns the
connection epoch assigned to the global (always `some`) together with the
function's boolean return value. -/
def establish_connection_timestamp (env : SyncEnv) : Option Int × Bool :=
  match env.sync1 with
  | .error _ => (some env.finalMs, false)
  | .ok isSync1 =>
    if isSync1 then
      match markerRound env with
      | some ts => (some ts, true)
      | none => (some env.fallbackMs, true)
    else (some env.finalMs, false)

/-- A capability environment where every external call succeeds and no
sibling bot processes exist. -/
def caps0 : Caps :=
  { procs1 := [], procs2 := [], vbsExists := true, attribOk := true,
    removeOk := true, shutdownOk := true, restartOk := true }

/-- A capability environment where terminating the one matching sibling
process raises an exception with text `boom`. -/
def capsE : Caps :=
  { caps0 with
    procs1 := [{ pid := 7, name := "python.exe", cmdline := ["python", "b_s.py"],
                 accessDenied := false, fault := some "boom" }] }

/-- Identity well-formedness used by the amended cross-identity claim:
nonempty and not ending in whitespace in Python's `str.strip()` sense
(so that stripping the interpolated command body leaves it unchanged). -/
def goodIdB (id : String) : Bool :=
  !id.data.isEmpty && id.data.getLast?.all (fun c => !pyIsSpace c)

/-- Character-wise divergence within the common prefix of two lists. -/
def divergeAux : List Char → List Char → Bool
  | c :: cs, d :: ds => (c ≠ d : Bool) || divergeAux cs ds
  | _, _ => false

/-- A capability environment with every call succeeding but the VBS
persistence artifact absent. -/
def capsNoVbs : Caps := { caps0 with vbsExists := false }

/-- Concrete message environment: no epoch established yet. -/
def envNoEpoch : MsgEnv :=
  ⟨"PC1", none, 1234, "DEFCON 5 PC1", caps0, none, none⟩

/-- Concrete message environment: plain chatter after the epoch. -/
def envChatter : MsgEnv :=
  ⟨"PC1", some 1000, 1001, "hello", caps0, none, none⟩

/-- Concrete message environment: Scenario B's `PING PC1` body, one
millisecond after an epoch of 1000. -/
def envPing : MsgEnv :=
  ⟨"PC1", some 1000, 1001, "PING PC1", caps0, none, none⟩

/-- Concrete message environment: the code's actual liveness query body. -/
def envOnline : MsgEnv :=
  ⟨"PC1", some 1000, 1001, "Are you online PC1", caps0, none, none⟩

/-- Concrete message environment with an injected fault during command
processing. -/
def envFault : MsgEnv :=
  ⟨"PC1", some 0, 1, "x", caps0, some "boom", none⟩

/-- A list whose head is not whitespace is unchanged by whitespace
`dropWhile`. -/
theorem dropWhile_ws_eq_self (l : List Char)
    (h : ∀ c, l.head? = some c → pyIsSpace c = false) :
    l.dropWhile pyIsSpace = l := by
  cases l with
  | nil => rfl
  | cons a t =>
    have ha := h a rfl
    simp [List.dropWhile_cons, ha]

/-- Stripping fixes any list whose first and last characters are not
whitespace. -/
theorem pyStripList_eq_self (x : List Char)
    (h1 : ∀ c, x.head? = some c → pyIsSpace c = false)
    (h2 : ∀ c, x.getLast? = some c → pyIsSpace c = false) :
    pyStripList x = x := by
  unfold pyStripList
  rw [dropWhile_ws_eq_self x h1]
  rw [dropWhile_ws_eq_self x.reverse (fun c hc => h2 c (by rwa [List.head?_reverse] at hc))]
  exact List.reverse_reverse x

/-- Stripping fixes a command pattern `pre ++ id` when the pattern prefix
starts with a non-whitespace character and the identity is nonempty and
does not end in whitespace. -/
theorem pyStrip_append_stable (pre id : String)
    (hpre1 : pre.data ≠ [])
    (hpre2 : pre.data.head?.all (fun c => !pyIsSpace c) = true)
    (hid : goodIdB id = true) :
    pyStrip (pre ++ id) = pre ++ id := by
  have hid1 : id.data ≠ [] := by
    have := ((Bool.and_eq_true _ _).mp hid).1
    simpa [List.isEmpty_iff] using this
  have hid2 : ∀ c, id.data.getLast? = some c → pyIsSpace c = false := by
    intro c hc
    have := ((Bool.and_eq_true _ _).mp hid).2
    rw [hc] at this
    simpa using this
  have hmain : pyStripList ((pre ++ id).data) = (pre ++ id).data := by
    rw [String.data_append]
    apply pyStripList_eq_self
    · intro c hc
      obtain ⟨a, t, ha⟩ := List.exists_cons_of_ne_nil hpre1
      rw [ha] at hc hpre2
      simp at hc
      subst hc
      simpa using hpre2
    · intro c hc
      rw [List.getLast?_append_of_ne_nil _ hid1] at hc
      exact hid2 c hc
  have h2 : pyStrip (pre ++ id) = (⟨(pre ++ id).data⟩ : String) := by
    unfold pyStrip
    rw [hmain]
  rw [h2]

theorem divergeAux_ne_append :
    ∀ (xs ys l1 l2 : List Char), divergeAux xs ys = true → xs ++ l1 ≠ ys ++ l2 := by
  intro xs
  induction xs with
  | nil => intro ys l1 l2 h; simp [divergeAux] at h
  | cons c cs ih =>
    intro ys l1 l2 h heq
    cases ys with
    | nil => simp [divergeAux] at h
    | cons d ds =>
      simp only [divergeAux, Bool.or_eq_true, decide_eq_true_eq] at h
      simp only [List.cons_append, List.cons.injEq] at heq
      rcases h with h | h
      · exact h heq.1
      · exact ih ds l1 l2 h heq.2

/-- Two appended strings differ whenever their left parts diverge within
their common prefix. -/
theorem str_cross (p q a b : String) (h : divergeAux p.data q.data = true) :
    p ++ a ≠ q ++ b := by
  intro heq
  have hd : p.data ++ a.data = q.data ++ b.data := by
    have := congrArg String.data heq
    rwa [String.data_append, String.data_append] at this
  exact divergeAux_ne_append p.data q.data a.data b.data h hd

/-- An appended string differs from a bare string whose data diverges from
the left part within the common prefix. -/
theorem str_cross_right (p a q : String) (h : divergeAux p.data q.data = true) :
    p ++ a ≠ q := by
  intro heq
  have hd : p.data ++ a.data = q.data ++ [] := by
    have := congrArg String.data heq
    rw [String.data_append] at this
    rw [this, List.append_nil]
  exact divergeAux_ne_append p.data q.data a.data [] h hd

/-- A bare string differs from an appended string whose left part diverges
from it within the common prefix. -/
theorem str_cross_left (q p b : String) (h : divergeAux q.data p.data = true) :
    q ≠ p ++ b := by
  intro heq
  have hd : q.data ++ [] = p.data ++ b.data := by
    have := congrArg String.data heq
    rw [String.data_append] at this
    rw [List.append_nil, this]
  exact divergeAux_ne_append q.data p.data [] b.data h hd

/-- Left cancellation for string append. -/
theorem append_inj_str (p a b : String) (h : p ++ a = p ++ b) : a = b := by
  have := congrArg String.data h
  rw [String.data_append, String.data_append] at this
  exact String.ext (List.append_cancel_left this)

/-- A message whose stripped form equals no command pattern is dispatched
to the final no-op branch: no reply, no effect, `running` unchanged. -/
theorem pc_unmatched (c : Caps) (bn msg : String) (r : Bool)
    (h : ∀ p ∈ allPatterns bn, pyStrip msg ≠ p) :
    process_command c bn msg r = ⟨none, r, []⟩ := by
  have h1 := h ("DEFCON 5 " ++ bn) (by simp [allPatterns])
  have h2 := h ("DEFCON 4 " ++ bn) (by simp [allPatterns])
  have h3 := h ("DEFCON 3 " ++ bn) (by simp [allPatterns])
  have h4 := h "DEFCON 2" (by simp [allPatterns])
  have h5 := h ("Are you online " ++ bn) (by simp [allPatterns])
  have h6 := h ("PC Shutdown " ++ bn) (by simp [allPatterns])
  have h7 := h ("PC Restart " ++ bn) (by simp [allPatterns])
  unfold process_command
  rw [if_neg h1, if_neg h2, if_neg h3, if_neg h4, if_neg h5, if_neg h6, if_neg h7]

/-- With the flag already false, `process_command` leaves it false. -/
theorem pc_running_false (c : Caps) (bn msg : String) :
    (process_command c bn msg false).running = false := by
  unfold process_command
  repeat' split
  all_goals rfl

/-- The `running` flag output of `process_command` never exceeds its
input. -/
theorem pc_mono (c : Caps) (bn msg : String) (r : Bool) :
    (process_command c bn msg r).running ≤ r := by
  cases r with
  | true => exact Bool.le_true _
  | false => rw [pc_running_false]

/-- A successful try body run from a false flag ends with a false flag. -/
theorem mcb_try_ok_false (ts0 : Int) (env : MsgEnv) (out : HandlerResult × Bool)
    (h : message_callback_try ts0 env false = .ok out) : out.2 = false := by
  unfold message_callback_try at h
  repeat' split at h
  all_goals first
    | exact Except.noConfusion h
    | (cases h; rfl)
    | (cases h; exact pc_running_false env.caps env.botName (pyStrip env.body))

/-- A faulting try body run from a false flag throws with a false flag. -/
theorem mcb_try_err_false (ts0 : Int) (env : MsgEnv) (e : String) (r : Bool)
    (effs : List Effect)
    (h : message_callback_try ts0 env false = .error (e, r, effs)) : r = false := by
  unfold message_callback_try at h
  repeat' split at h
  all_goals first
    | exact Except.noConfusion h
    | (simp only [Except.error.injEq, Prod.mk.injEq] at h
       rw [← h.2.1]
       try first
         | rfl
         | exact pc_running_false env.caps env.botName (pyStrip env.body))

/-- With the flag already false, `message_callback` leaves it false. -/
theorem mcb_running_false (env : MsgEnv) :
    (message_callback env false).2 = false := by
  cases henv : env.epoch with
  | none => simp [message_callback, henv]
  | some ts0 =>
    cases htry : message_callback_try ts0 env false with
    | ok out =>
      have hout := mcb_try_ok_false ts0 env out htry
      simp [message_callback, henv, htry, hout]
    | error a =>
      obtain ⟨e, r, effs⟩ := a
      have hr := mcb_try_err_false ts0 env e r effs htry
      simp [message_callback, henv, htry, hr]

/-- The `running` flag output of `message_callback` never exceeds its
input. -/
theorem mcb_mono (env : MsgEnv) (r : Bool) :
    (message_callback env r).2 ≤ r := by
  cases r with
  | true => exact Bool.le_true _
  | false => rw [mcb_running_false]

/-- The fold of the poll loop's handler is monotone in the flag. -/
theorem handleAll_mono (envs : List MsgEnv) (r : Bool) :
    handleAll envs r ≤ r := by
  induction envs generalizing r with
  | nil => exact le_refl r
  | cons e es ih =>
    have h1 : handleAll (e :: es) r = handleAll es ((message_callback e r).2) := rfl
    rw [h1]
    exact le_trans (ih ((message_callback e r).2)) (mcb_mono e r)

/-- Claim C6: while the connection epoch is unset, every inbound message is
ignored by the handler: no classification, no command dispatch, no reply,
no flag change. -/
theorem bs_C6 (env : MsgEnv) (r : Bool) (h : env.epoch = none) :
    message_callback env r = (.skippedNoEpoch, r) := by
  simp [message_callback, h]

/-- Witness for C6 at a concrete pre-ready environment. -/
theorem bs_C6_witness :
    message_callback envNoEpoch true = (.skippedNoEpoch, true) :=
  bs_C6 envNoEpoch true rfl

/-- Claim C5: an exception raised anywhere inside the per-message handling
path is caught at the handler boundary and converted into a logged event,
with the handler returning normally (carrying the state at the raise
point). -/
theorem bs_C5 (env : MsgEnv) (r : Bool) (ts0 : Int) (e : String) (r' : Bool)
    (effs : List Effect) (h : env.epoch = some ts0)
    (herr : message_callback_try ts0 env r = .error (e, r', effs)) :
    message_callback env r = (.errorLogged e effs, r') := by
  simp [message_callback, h, herr]

/-- Witness for C5: a concrete fault during command processing is logged
and the handler returns normally. -/
theorem bs_C5_witness :
    message_callback envFault true = (.errorLogged "boom" [], true) :=
  bs_C5 envFault true 0 "boom" true [] rfl rfl

/-- Claim C1: with an established epoch, an inbound message is passed to
command processing iff its server timestamp is strictly greater than the
epoch and its body does not start with the agent's own sync-marker tag;
late-or-equal timestamps and self-marker bodies are always discarded. -/
theorem bs_C1 (env : MsgEnv) (r : Bool) (ts0 : Int) (h : env.epoch = some ts0) :
    (message_callback env r).1.discarded = false ↔
      ts0 < env.serverTs ∧ pyStartsWith env.body "__TIMESTAMP_SYNC__" = false := by
  simp only [message_callback, h]
  unfold message_callback_try
  by_cases hm : pyStartsWith env.body "__TIMESTAMP_SYNC__" = true
  · simp [hm, HandlerResult.discarded]
  · by_cases ht : env.serverTs ≤ ts0
    · simp [hm, ht, HandlerResult.discarded]
      try omega
    · cases hp : env.procFault with
      | some e =>
        simp [hm, ht, hp, HandlerResult.discarded]
        try omega
      | none =>
        cases hs : env.sendFault with
        | some e =>
          by_cases hr : pyTruthy (process_command env.caps env.botName (pyStrip env.body) r).reply = true <;>
            simp [hm, ht, hp, hs, hr, HandlerResult.discarded] <;> try omega
        | none =>
          by_cases hr : pyTruthy (process_command env.caps env.botName (pyStrip env.body) r).reply = true <;>
            simp [hm, ht, hp, hs, hr, HandlerResult.discarded] <;> try omega

/-- Witness for C1 at a concrete accepted message. -/
theorem bs_C1_witness :
    (message_callback envChatter true).1.discarded = false :=
  (bs_C1 envChatter true 1000 rfl).mpr ⟨by decide, by decide⟩

/-- Claim C2: for identity PC1, `DEFCON 5 PC1` runs process termination;
zero errors give the success reply with the flag cleared, at least one
error gives the error reply with the flag unchanged. -/
theorem bs_C2 (c : Caps) (r : Bool) :
    ((terminate_processes c).2 = [] →
      process_command c BOT_NAME "DEFCON 5 PC1" r =
        ⟨some "Success from PC1 on DEFCON 5", false, [Effect.terminate]⟩) ∧
    ((terminate_processes c).2 ≠ [] →
      process_command c BOT_NAME "DEFCON 5 PC1" r =
        ⟨some ("Error from PC1 on DEFCON 5: " ++
          String.intercalate "; " (terminate_processes c).2), r, [Effect.terminate]⟩) := by
  constructor
  · intro h
    unfold process_command
    rw [if_pos (by decide)]
    rw [h]
    rw [if_pos (show ([] : List String).isEmpty = true from rfl)]
    rfl
  · intro h
    unfold process_command
    rw [if_pos (by decide)]
    rw [if_neg (fun hc => h (List.isEmpty_iff.mp hc))]
    rfl

/-- Witness for C2: a concrete zero-error run and a concrete one-error
run. -/
theorem bs_C2_witness :
    (terminate_processes caps0).2 = [] ∧
    process_command caps0 BOT_NAME "DEFCON 5 PC1" true =
      ⟨some "Success from PC1 on DEFCON 5", false, [Effect.terminate]⟩ ∧
    (terminate_processes capsE).2 ≠ [] ∧
    process_command capsE BOT_NAME "DEFCON 5 PC1" true =
      ⟨some ("Error from PC1 on DEFCON 5: " ++
        String.intercalate "; " (terminate_processes capsE).2), true, [Effect.terminate]⟩ :=
  ⟨by decide, (bs_C2 caps0 true).1 (by decide), by decide, (bs_C2 capsE true).2 (by decide)⟩

/-- Counterexample to C3 as stated: the identities `PC1 ` (trailing space)
and `PC1` are distinct strings, yet the command body addressed to `PC1 `
is matched by the agent configured as `PC1` (the dispatcher strips the
body first), producing a reply, a capability call, and a flag change. -/
theorem bs_C3_counterexample :
    ("PC1 " : String) ≠ "PC1" ∧
    "DEFCON 5 PC1 " = "DEFCON 5 " ++ "PC1 " ∧
    process_command caps0 "PC1" "DEFCON 5 PC1 " true =
      ⟨some "Success from PC1 on DEFCON 5", false, [Effect.terminate]⟩ :=
  ⟨by decide, by decide, by decide⟩

/-- Claim C3 (amended): for distinct identities that are nonempty and do
not end in whitespace, a command body addressed to one identity produces
no reply and no side effects when interpreted under the other; the
unscoped broadcast `DEFCON 2` matches every agent. -/
theorem bs_C3_amended :
    (∀ (id1 id2 : String) (c : Caps) (r : Bool) (body : String),
      goodIdB id1 = true → id1 ≠ id2 → body ∈ addressedBodies id1 →
      process_command c id2 body r = ⟨none, r, []⟩) ∧
    (∀ (id : String) (c : Caps) (r : Bool),
      (process_command c id "DEFCON 2" r).reply.isSome = true) := by
  constructor
  · intro id1 id2 c r body hgood hne hmem
    apply pc_unmatched
    intro p hp
    simp only [addressedBodies, List.mem_cons, List.not_mem_nil, or_false] at hmem
    simp only [allPatterns, List.mem_cons, List.not_mem_nil, or_false] at hp
    rcases hmem with rfl | rfl | rfl | rfl | rfl | rfl
    all_goals rw [pyStrip_append_stable _ _ (by decide) (by decide) hgood]
    all_goals rcases hp with rfl | rfl | rfl | rfl | rfl | rfl | rfl
    all_goals first
      | exact str_cross _ _ _ _ (by decide)
      | exact str_cross_right _ _ _ (by decide)
      | exact fun heq => hne (append_inj_str _ _ _ heq)
  · intro id c r
    unfold process_command
    rw [show pyStrip "DEFCON 2" = "DEFCON 2" from by decide]
    rw [if_neg (str_cross_left _ _ _ (by decide))]
    rw [if_neg (str_cross_left _ _ _ (by decide))]
    rw [if_neg (str_cross_left _ _ _ (by decide))]
    rw [if_pos rfl]
    repeat' split
    all_goals rfl

/-- Witness for the amended C3: a `DEFCON 5` body addressed to `PC2`
interpreted under identity `PC1` is a silent no-op, and `DEFCON 2` is
matched by identity `PC1`. -/
theorem bs_C3_witness :
    process_command caps0 "PC1" ("DEFCON 5 " ++ "PC2") true = ⟨none, true, []⟩ ∧
    (process_command caps0 "PC1" "DEFCON 2" true).reply.isSome = true :=
  ⟨bs_C3_amended.1 "PC2" "PC1" caps0 true ("DEFCON 5 " ++ "PC2") (by decide)
      (by decide) (by simp [addressedBodies]),
   bs_C3_amended.2 "PC1" caps0 true⟩

/-- Counterexample to C7 as stated: the body ` Are you online PC1 ` equals
no command pattern of identity `PC1` as a string, yet it matches the
liveness query (matching is on the stripped body, not the raw body). -/
theorem bs_C7_counterexample :
    (" Are you online PC1 " : String) ∉ allPatterns "PC1" ∧
    process_command caps0 "PC1" " Are you online PC1 " true =
      ⟨some "Yes PC1 is online", true, []⟩ :=
  ⟨by decide, by decide⟩

/-- Claim C7 (amended): matching is exact-string and case-sensitive on the
whitespace-stripped body: any body whose stripped form differs in case or
content from every command pattern is unmatched and yields no reply, no
effect, and an unchanged Run Flag. -/
theorem bs_C7_amended (c : Caps) (bn msg : String) (r : Bool)
    (h : ∀ p ∈ allPatterns bn, pyStrip msg ≠ p) :
    process_command c bn msg r = ⟨none, r, []⟩ :=
  pc_unmatched c bn msg r h

/-- Witness for the amended C7: a case-variant body is unmatched. -/
theorem bs_C7_witness :
    process_command caps0 "PC1" "defcon 5 pc1" true = ⟨none, true, []⟩ :=
  bs_C7_amended caps0 "PC1" "defcon 5 pc1" true (by decide)

/-- Counterexample to C8 as stated: at epoch 1000, the timestamp-1001
message `PING PC1` is accepted but produces no reply at all — in the code
the liveness query is `Are you online PC1`, so `PING PC1` is unmatched. -/
theorem bs_C8_counterexample :
    message_callback envPing running_init = (.done none [], true) ∧
    (HandlerResult.done none [] : HandlerResult) ≠
      .done (some "Yes PC1 is online") [] :=
  ⟨by decide, by decide⟩

/-- Claim C8 (amended): for identity PC1 with epoch 1000, the message with
timestamp 1001 and body `Are you online PC1` is accepted and produces the
reply `Yes PC1 is online` with the Run Flag left unchanged. -/
theorem bs_C8_amended :
    message_callback envOnline running_init =
      (.done (some "Yes PC1 is online") [], true) := by
  decide

/-- Claim C4: the Run Flag starts true and is monotone — command
interpretation, message handling, the poll loop's fold, the liveness loop
iteration, and the main `finally` never raise it back to true, and setting
it false again is idempotent. -/
theorem bs_C4 :
    running_init = true ∧
    (∀ (c : Caps) (bn msg : String) (r : Bool),
      (process_command c bn msg r).running ≤ r) ∧
    (∀ (env : MsgEnv) (r : Bool), (message_callback env r).2 ≤ r) ∧
    (∀ (envs : List MsgEnv) (r : Bool), handleAll envs r ≤ r) ∧
    (∀ (env : MsgEnv), (message_callback env false).2 = false) ∧
    (∀ (r w : Bool), update_lock_file_iter r w = r) ∧
    (∀ (r : Bool), main_finally r ≤ r) :=
  ⟨rfl, pc_mono, mcb_mono, handleAll_mono, mcb_running_false,
   fun _ _ => rfl, fun r => Bool.false_le r⟩

/-- Claim C9: without the persistence artifact, hide and delete both
report failure, so DEFCON 4, DEFCON 3 and DEFCON 2 return an error reply
and leave the Run Flag unchanged even when termination reported zero
errors. -/
theorem bs_C9 (c : Caps) (id : String) (r : Bool)
    (hvbs : c.vbsExists = false)
    (hterm : (terminate_processes c).2 = [])
    (hid : goodIdB id = true) :
    hide_vbs_file c = false ∧ delete_vbs_file c = false ∧
    process_command c id ("DEFCON 4 " ++ id) r =
      ⟨some ("Error from " ++ id ++ " on DEFCON 4: Failed to hide VBS file"), r,
        [Effect.terminate, Effect.hideVbs]⟩ ∧
    process_command c id ("DEFCON 3 " ++ id) r =
      ⟨some ("Error from " ++ id ++ " on DEFCON 3: Failed to delete VBS file"), r,
        [Effect.terminate, Effect.deleteVbs]⟩ ∧
    process_command c id "DEFCON 2" r =
      ⟨some ("Error from " ++ id ++ " on DEFCON 2: Failed to delete VBS file"), r,
        [Effect.terminate, Effect.deleteVbs]⟩ := by
  have hhide : hide_vbs_file c = false := by simp [hide_vbs_file, hvbs]
  have hdel : delete_vbs_file c = false := by simp [delete_vbs_file, hvbs]
  refine ⟨hhide, hdel, ?_, ?_, ?_⟩
  · unfold process_command
    rw [pyStrip_append_stable "DEFCON 4 " id (by decide) (by decide) hid]
    rw [if_neg (str_cross _ _ _ _ (by decide))]
    rw [if_pos rfl]
    rw [hterm]
    rw [if_pos (show ([] : List String).isEmpty = true from rfl)]
    rw [hhide]
    rw [if_neg Bool.false_ne_true]
  · unfold process_command
    rw [pyStrip_append_stable "DEFCON 3 " id (by decide) (by decide) hid]
    rw [if_neg (str_cross _ _ _ _ (by decide))]
    rw [if_neg (str_cross _ _ _ _ (by decide))]
    rw [if_pos rfl]
    rw [hterm]
    rw [if_pos (show ([] : List String).isEmpty = true from rfl)]
    rw [hdel]
    rw [if_neg Bool.false_ne_true]
  · unfold process_command
    rw [show pyStrip "DEFCON 2" = "DEFCON 2" from by decide]
    rw [if_neg (str_cross_left _ _ _ (by decide))]
    rw [if_neg (str_cross_left _ _ _ (by decide))]
    rw [if_neg (str_cross_left _ _ _ (by decide))]
    rw [if_pos rfl]
    rw [hterm]
    rw [if_pos (show ([] : List String).isEmpty = true from rfl)]
    rw [hdel]
    rw [if_neg Bool.false_ne_true]

/-- Witness for C9 at a concrete artifact-free environment. -/
theorem bs_C9_witness :
    hide_vbs_file capsNoVbs = false ∧ delete_vbs_file capsNoVbs = false ∧
    process_command capsNoVbs "PC1" ("DEFCON 4 " ++ "PC1") true =
      ⟨some ("Error from " ++ "PC1" ++ " on DEFCON 4: Failed to hide VBS file"), true,
        [Effect.terminate, Effect.hideVbs]⟩ ∧
    process_command capsNoVbs "PC1" ("DEFCON 3 " ++ "PC1") true =
      ⟨some ("Error from " ++ "PC1" ++ " on DEFCON 3: Failed to delete VBS file"), true,
        [Effect.terminate, Effect.deleteVbs]⟩ ∧
    process_command capsNoVbs "PC1" "DEFCON 2" true =
      ⟨some ("Error from " ++ "PC1" ++ " on DEFCON 2: Failed to delete VBS file"), true,
        [Effect.terminate, Effect.deleteVbs]⟩ :=
  bs_C9 capsNoVbs "PC1" true rfl (by decide) (by decide)

/-- Claim C10: `establish_connection_timestamp` always leaves the epoch
set: every execution path yields `some` value — the marker round-trip's
server timestamp, or one of the two local-clock fallbacks. -/
theorem bs_C10 (env : SyncEnv) :
    (establish_connection_timestamp env).1.isSome = true ∧
    ((establish_connection_timestamp env).1 = some env.finalMs ∨
     (establish_connection_timestamp env).1 = some env.fallbackMs ∨
     ∃ ts, markerRound env = some ts ∧
       (establish_connection_timestamp env).1 = some ts) := by
  unfold establish_connection_timestamp
  cases h1 : env.sync1 with
  | error e => simp
  | ok b =>
    cases b with
    | false => simp
    | true =>
      cases hm : markerRound env with
      | none => simp [hm]
      | some ts => simp [hm]
